import Mathlib

/-!
A shallow embedding of the job-lifecycle REST API of the `cc-backend`
repository (package `api`, file with `startJob`, `checkAndHandleStopJob`,
`deleteJobBefore`, ... and `internal/repository/tags.go`), together with
proofs about the embedded handlers.

Conventions of the embedding:
* Go `int64` / unix timestamps are `Int`; the one place the source narrows
  to `int32` (the duration computation in `checkAndHandleStopJob`) is made
  explicit through `int32ofInt`.
* The SQL store is a pure value (a list of job rows / tag rows) threaded
  through the handlers; store operations are modelled as always
  succeeding, so the 500 "store failure" branches of the handlers are not
  reachable in the model.  The order in which store operations are issued
  is recorded in an explicit trace where a claim is about that order.
* The asynchronous archiving goroutine is modelled as a pure pipeline
  function of two oracle booleans (did `FetchMetadata` succeed, did
  `metricdata.ArchiveJob` succeed) returning the list of collaborator
  calls the goroutine performs.
* `http.Error` writes a plain-text body while `handleError` writes the
  JSON `ErrorResponse` object; the two shapes are kept distinct in `Body`.
-/

namespace CC

/-- Go's conversion `int32(n)` of a 64-bit signed integer: the value is
reduced to its low 32 bits and reinterpreted as a signed 32-bit value. -/
def int32ofInt (n : Int) : Int :=
  (n + 2 ^ 31) % 2 ^ 32 - 2 ^ 31

/-- The "reduce modulo 2^32 and reinterpret as signed 32-bit" reading:
take the nonnegative residue and subtract 2^32 when it is ≥ 2^31. -/
def twosComplement32 (n : Int) : Int :=
  if n % 2 ^ 32 < 2 ^ 31 then n % 2 ^ 32 else n % 2 ^ 32 - 2 ^ 32

/-- Monitoring status of a job (`schema.MonitoringStatus*` constants). -/
inductive MonitoringStatus where
  | disabled
  | runningOrArchiving
  | archivingFailed
  | archivingSuccessful
deriving DecidableEq, Repr

/-- Job states are strings in the source (`schema.JobState`).
Modelled from the spec: `schema.JobState.Valid` is not under `src/`; the
valid states are the ones enumerated by the REST API documentation:
running, completed, failed, cancelled, stopped, timeout. -/
def JobState.valid (s : String) : Bool :=
  s == "running" || s == "completed" || s == "failed" || s == "cancelled" ||
    s == "stopped" || s == "timeout"

/-- The state string the source uses for a running job
(`schema.JobStateRunning`). -/
def JobState.running : String := "running"

/-- The default terminal state (`schema.JobStateCompleted`). -/
def JobState.completed : String := "completed"

/-- A job row of the SQL database (the fields of `schema.Job` the job
lifecycle handlers read or write).  `startTime` is the unix timestamp
`job.StartTime.Unix()`; `duration` is an `int32` in the source. -/
structure Job where
  id : Int
  jobID : Int
  cluster : String
  startTime : Int
  duration : Int
  state : String
  monitoringStatus : MonitoringStatus
deriving DecidableEq, Repr

/-- The body of a `StopJobApiRequest`: `stopTime` and the final `jobState`
(the empty string modelling an absent `jobState` field). -/
structure StopJobApiRequest where
  stopTime : Int
  state : String
deriving DecidableEq, Repr

/-- A response body.  `handleError` encodes the JSON `ErrorResponse`
object `{status, error}` (`errorJson`); `http.Error` writes a plain text
line (`plainText`); the success bodies of the job handlers are the new
job id (`startOk`), the stopped job view (`jobView`) and the deletion
message object `{msg}` (`deleteMsg`). -/
inductive Body where
  | errorJson (status : String) (error : String)
  | plainText (text : String)
  | startOk (dbid : Int)
  | jobView (job : Job)
  | deleteMsg (msg : String)
deriving DecidableEq, Repr

/-- An HTTP response: status code plus body. -/
structure Response where
  code : Nat
  body : Body
deriving DecidableEq, Repr

/-- Go's `http.StatusText` for the status codes the handlers use. -/
def statusText (code : Nat) : String :=
  if code = 400 then "Bad Request"
  else if code = 403 then "Forbidden"
  else if code = 404 then "Not Found"
  else if code = 422 then "Unprocessable Entity"
  else if code = 500 then "Internal Server Error"
  else if code = 200 then "OK"
  else if code = 201 then "Created"
  else ""

/-- `handleError(err, statusCode, rw)`: writes `statusCode` and the JSON
object `ErrorResponse{Status: http.StatusText(statusCode), Error:
err.Error()}`. -/
def handleError (msg : String) (code : Nat) : Response :=
  ⟨code, Body.errorJson (statusText code) msg⟩

/-- A collaborator call the archiving goroutine performs, in order:
`JobRepository.FetchMetadata`, `metricdata.ArchiveJob` (the Metric
Archiver), `JobRepository.UpdateMonitoringStatus`, and the final
`JobRepository.Archive(id, status, statistics)` update that persists the
statistics. -/
inductive ArchEvent where
  | fetchMetadata
  | invokeArchiver
  | updateMonitoringStatus (s : MonitoringStatus)
  | archive (s : MonitoringStatus)
deriving DecidableEq, Repr

/-- The body of the archiving goroutine spawned by
`checkAndHandleStopJob`, as the list of collaborator calls it makes.
`fetchOk` tells whether `JobRepository.FetchMetadata` succeeds and
`archOk` whether `metricdata.ArchiveJob` succeeds: on a fetch failure the
goroutine sets the monitoring status to archiving-failed and returns
before invoking the archiver; on an archiver failure it does the same
after the invocation; on success it issues the final
`Archive(id, MonitoringStatusArchivingSuccessful, jobMeta.Statistics)`
update. -/
def archivingPipeline (fetchOk archOk : Bool) : List ArchEvent :=
  if !fetchOk then
    [ArchEvent.fetchMetadata,
     ArchEvent.updateMonitoringStatus MonitoringStatus.archivingFailed]
  else if !archOk then
    [ArchEvent.fetchMetadata, ArchEvent.invokeArchiver,
     ArchEvent.updateMonitoringStatus MonitoringStatus.archivingFailed]
  else
    [ArchEvent.fetchMetadata, ArchEvent.invokeArchiver,
     ArchEvent.archive MonitoringStatus.archivingSuccessful]

/-- The observable effects of `checkAndHandleStopJob`: the HTTP response,
the argument triple of the `JobRepository.Stop` call if one was issued
(duration, state, monitoring status), how often `OngoingArchivings.Add(1)`
ran, whether the archiving goroutine was spawned, and the collaborator
calls that goroutine makes. -/
structure StopEffects where
  response : Response
  stopCall : Option (Int × String × MonitoringStatus)
  archivingsAdded : Nat
  dispatched : Bool
  archEvents : List ArchEvent
deriving DecidableEq, Repr

/-- `checkAndHandleStopJob(rw, job, req)`.  `job` is the row the caller
fetched (`none` models a `nil` job).  Sanity checks first: a `nil` job, a
`stopTime` not larger than the start time, or a non-running state are
rejected with a 400 `handleError` before any store write; an invalid
non-empty requested state likewise; an empty requested state defaults to
completed.  Then the duration is computed as
`int32(req.StopTime - job.StartTime.Unix())`, the job is stopped in the
database, the 200 response with the updated job view is sent, and unless
the monitoring status is disabled an archiving goroutine is dispatched
(after `OngoingArchivings.Add(1)`).  The `Stop` store call is modelled as
succeeding. -/
def checkAndHandleStopJob (job : Option Job) (req : StopJobApiRequest)
    (fetchOk archOk : Bool) : StopEffects :=
  match job with
  | none =>
      ⟨handleError
        "stopTime must be larger than startTime and only running jobs can be stopped"
        400, none, 0, false, []⟩
  | some job =>
      if job.startTime ≥ req.stopTime ∨ job.state ≠ JobState.running then
        ⟨handleError
          "stopTime must be larger than startTime and only running jobs can be stopped"
          400, none, 0, false, []⟩
      else if req.state ≠ "" ∧ JobState.valid req.state = false then
        ⟨handleError ("invalid job state: " ++ req.state) 400, none, 0, false, []⟩
      else
        let finalState := if req.state = "" then JobState.completed else req.state
        let duration := int32ofInt (req.stopTime - job.startTime)
        let job' := { job with duration := duration, state := finalState }
        if job.monitoringStatus = MonitoringStatus.disabled then
          ⟨⟨200, Body.jobView job'⟩,
           some (duration, finalState, job.monitoringStatus), 0, false, []⟩
        else
          ⟨⟨200, Body.jobView job'⟩,
           some (duration, finalState, job.monitoringStatus), 1, true,
           archivingPipeline fetchOk archOk⟩

/-- The fields of the `schema.JobMeta` request body of `startJob` that
the handler reads: external job id, cluster, unix start time, state
(empty string modelling an absent field), monitoring status and the tags
to attach. -/
structure JobMeta where
  jobID : Int
  cluster : String
  startTime : Int
  state : String
  monitoringStatus : MonitoringStatus
  tags : List (String × String)
deriving DecidableEq, Repr

/-- The default applied by `startJob` before the sanity checks: an unset
state becomes running. -/
def applyStateDefault (m : JobMeta) : JobMeta :=
  if m.state = "" then { m with state := JobState.running } else m

/-- The job database of the model: the rows plus the next surrogate id
the store will assign. -/
structure Store where
  jobs : List Job
  nextId : Int
deriving DecidableEq, Repr

/-- The row `JobRepository.Start` inserts for a request: a fresh id, the
request's natural key, duration 0, and the request's state and
monitoring status. -/
def jobOfMeta (id : Int) (m : JobMeta) : Job :=
  { id := id, jobID := m.jobID, cluster := m.cluster,
    startTime := m.startTime, duration := 0, state := m.state,
    monitoringStatus := m.monitoringStatus }

/-- Modelled from the spec: `JobRepository.FindAll(&req.JobID,
&req.Cluster, nil)` is not under `src/`; per the spec it "queries
existing jobs matching (external id, cluster)". -/
def FindAll (jobID : Int) (cluster : String) (jobs : List Job) : List Job :=
  jobs.filter (fun j => j.jobID == jobID && j.cluster == cluster)

/-- The store calls `startJob` issues, in order. -/
inductive StoreOp where
  | findAll
  | start
  | addTagOrCreate
deriving DecidableEq, Repr

/-- The duplicate-window predicate of `startJob`'s loop over the
`FindAll` result: `(req.StartTime - job.StartTimeUnix) < 86400`. -/
def duplicateWindow (newStartTime : Int) (job : Job) : Bool :=
  newStartTime - job.startTime < 86400

/-- The message `startJob` formats for a duplicate. -/
def duplicateMsg (dbid : Int) : String :=
  "a job with that jobId, cluster and startTime already exists: dbid: " ++
    toString dbid

/-- The result of `startJob`: the HTTP response, the store afterwards,
and the trace of store calls issued. -/
structure StartResult where
  response : Response
  store : Store
  ops : List StoreOp
deriving DecidableEq, Repr

/-- `startJob(rw, r)` after the role gate.  `decoded` is the outcome of
decoding the request body (`none` models a parse failure) and `sanityOk`
the outcome of `repository.SanityChecks` (not under `src/`; an abstract
predicate on the defaulted request).  The handler decodes, defaults the
state to running, runs the sanity checks, and only then queries the
store: `FindAll` on (job id, cluster), rejecting with a 422 `handleError`
carrying the first row whose start time satisfies `duplicateWindow`;
otherwise it inserts the row, adds the request's tags, and answers 201
with the new database id.  Store calls are modelled as succeeding. -/
def startJob (decoded : Option JobMeta) (sanityOk : JobMeta → Bool)
    (store : Store) : StartResult :=
  match decoded with
  | none => ⟨handleError "parsing request body failed" 400, store, []⟩
  | some req0 =>
      let req := applyStateDefault req0
      if sanityOk req then
        match (FindAll req.jobID req.cluster store.jobs).find?
            (duplicateWindow req.startTime) with
        | some job =>
            ⟨handleError (duplicateMsg job.id) 422, store, [StoreOp.findAll]⟩
        | none =>
            ⟨⟨201, Body.startOk store.nextId⟩,
             ⟨store.jobs ++ [jobOfMeta store.nextId req], store.nextId + 1⟩,
             [StoreOp.findAll, StoreOp.start] ++
               req.tags.map (fun _ => StoreOp.addTagOrCreate)⟩
      else
        ⟨handleError "sanity check failed" 400, store, []⟩

/-- Modelled from the spec: `JobRepository.DeleteJobsBefore(ts)` is not
under `src/`; per the spec it "removes all jobs with startTime before
that timestamp" from the database record set and returns the exact
count of deleted rows. -/
def DeleteJobsBefore (ts : Int) (jobs : List Job) : List Job × Nat :=
  (jobs.filter (fun j => !(j.startTime < ts)),
   (jobs.filter (fun j => j.startTime < ts)).length)

/-- `deleteJobBefore(rw, r)` after the role gate.  `tsParse` is the
outcome of `strconv.ParseInt` on the `{ts}` path variable (`none` models
a parse failure, rejected with a 400 `handleError`); on success the
handler deletes all jobs older than `ts` and answers 200 with the
`{msg: "Successfully deleted N jobs"}` object. -/
def deleteJobBefore (tsParse : Option Int) (jobs : List Job) :
    Response × List Job :=
  match tsParse with
  | none => (handleError "integer expected in path for ts" 400, jobs)
  | some ts =>
      let r := DeleteJobsBefore ts jobs
      (⟨200, Body.deleteMsg ("Successfully deleted " ++ toString r.2 ++ " jobs")⟩,
       r.1)

/-- A tag row of the `tag` table. -/
structure Tag where
  id : Int
  type : String
  name : String
deriving DecidableEq, Repr

/-- The tag-side database state: the `tag` table, the `jobtag`
association table as (job id, tag id) pairs, the set of job ids for
which `FindById` succeeds, the next tag id the store will assign, and
the record of `archive.UpdateTags(job, tags)` calls (that collaborator
lives outside `src/`; per the spec it reflects the tag set into the
job's archive record). -/
structure TagDB where
  tags : List Tag
  jobtag : List (Int × Int)
  jobs : List Int
  nextTagId : Int
  archiveUpdates : List (Int × List Tag)
deriving DecidableEq, Repr

/-- `JobRepository.TagId(tagType, tagName)`: the id of the tag with that
type and name, and whether one exists. -/
def TagId (tagType tagName : String) (db : TagDB) : Int × Bool :=
  match db.tags.find? (fun t => t.type == tagType && t.name == tagName) with
  | some t => (t.id, true)
  | none => (0, false)

/-- `JobRepository.CreateTag(tagType, tagName)`: inserts a new `tag` row
and returns its fresh id. -/
def CreateTag (tagType tagName : String) (db : TagDB) : Int × TagDB :=
  (db.nextTagId,
   { db with tags := db.tags ++ [⟨db.nextTagId, tagType, tagName⟩],
             nextTagId := db.nextTagId + 1 })

/-- `JobRepository.GetTags(&job)`: the tags associated with the job. -/
def GetTags (job : Int) (db : TagDB) : List Tag :=
  db.tags.filter (fun t => db.jobtag.contains (job, t.id))

/-- `JobRepository.AddTag(job, tag)`: inserts the `jobtag` association,
fetches the job (failing when the job id is unknown — note the
association row is already committed at that point), reads the job's
full current tag set and hands it to `archive.UpdateTags`.  Returns the
tag list on success. -/
def AddTag (job tag : Int) (db : TagDB) : Option (List Tag) × TagDB :=
  let db1 := { db with jobtag := db.jobtag ++ [(job, tag)] }
  if db1.jobs.contains job then
    let tags := GetTags job db1
    (some tags, { db1 with archiveUpdates := db1.archiveUpdates ++ [(job, tags)] })
  else
    (none, db1)

/-- `JobRepository.AddTagOrCreate(jobId, tagType, tagName)`: looks the
tag up by (type, name), creates it when absent, then associates it with
the job via `AddTag`.  Returns the tag id on success. -/
def AddTagOrCreate (jobId : Int) (tagType tagName : String) (db : TagDB) :
    Option Int × TagDB :=
  let looked := TagId tagType tagName db
  let created := if looked.2 then (looked.1, db) else CreateTag tagType tagName db
  let added := AddTag jobId created.1 created.2
  match added.1 with
  | some _ => (some created.1, added.2)
  | none => (none, added.2)

/-- The filter/pagination state `getJobs` accumulates from the query
parameters (the fields the parameter loop writes). -/
structure GetJobsFilter where
  states : List String
  cluster : Option String
  startFrom : Option Int
  startTo : Option Int
  page : Int
  itemsPerPage : Int
  withMetadata : Bool
deriving DecidableEq, Repr

/-- The initial filter of `getJobs`: 25 items per page, page 1. -/
def initialGetJobsFilter : GetJobsFilter :=
  ⟨[], none, none, none, 1, 25, false⟩

/-- The error message Go's `strconv` produces for a non-numeric value
(surfaced verbatim through `http.Error` by `getJobs`). -/
def atoiErrMsg (s : String) : String :=
  "strconv.Atoi: parsing \x22" ++ s ++ "\x22: invalid syntax"

/-- One iteration of `getJobs`'s `switch key` over a query parameter:
either an early plain-text `http.Error` response (400) or the updated
filter.  Numeric parsing models `strconv.Atoi` / `ParseInt` via
`String.toInt?`. -/
def getJobsStep (acc : GetJobsFilter) (kv : String × List String) :
    Except Response GetJobsFilter :=
  match kv.1 with
  | "state" =>
      kv.2.foldlM (fun (a : GetJobsFilter) s =>
        if JobState.valid s then
          Except.ok { a with states := a.states ++ [s] }
        else
          Except.error ⟨400, Body.plainText "invalid query parameter value: state"⟩)
        acc
  | "cluster" => Except.ok { acc with cluster := kv.2.head? }
  | "start-time" =>
      let st := (kv.2.headD "").splitOn "-"
      if st.length = 2 then
        match (st.getD 0 "").toInt?, (st.getD 1 "").toInt? with
        | some f, some t =>
            Except.ok { acc with startFrom := some f, startTo := some t }
        | none, _ =>
            Except.error ⟨400, Body.plainText (atoiErrMsg (st.getD 0 ""))⟩
        | some _, none =>
            Except.error ⟨400, Body.plainText (atoiErrMsg (st.getD 1 ""))⟩
      else
        Except.error ⟨400, Body.plainText "invalid query parameter value: startTime"⟩
  | "page" =>
      match (kv.2.headD "").toInt? with
      | some x => Except.ok { acc with page := x }
      | none => Except.error ⟨400, Body.plainText (atoiErrMsg (kv.2.headD ""))⟩
  | "items-per-page" =>
      match (kv.2.headD "").toInt? with
      | some x => Except.ok { acc with itemsPerPage := x }
      | none => Except.error ⟨400, Body.plainText (atoiErrMsg (kv.2.headD ""))⟩
  | "with-metadata" => Except.ok { acc with withMetadata := true }
  | other => Except.error ⟨400, Body.plainText ("invalid query parameter: " ++ other)⟩

/-- The query-parameter loop of `getJobs` (the source iterates a Go map;
the model fixes an iteration order by taking the parameters as a list).
Every early exit goes through `http.Error`, i.e. a plain-text body. -/
def getJobsParams (params : List (String × List String)) :
    Except Response GetJobsFilter :=
  params.foldlM getJobsStep initialGetJobsFilter

/-- Whether a body is the JSON `ErrorResponse` object produced by
`handleError`. -/
def Body.isErrorJson : Body → Bool
  | Body.errorJson _ _ => true
  | _ => false

/-- Modelled from the spec: `JobRepository.FindById(id)` is not under
`src/`; per the spec it looks a job up by its database-assigned
surrogate id, failing (`sql.ErrNoRows`, modelled as `none`) when no such
row exists. -/
def FindById (id : Int) (jobs : List Job) : Option Job :=
  jobs.find? (fun j => j.id == id)

/-- `stopJobById(rw, r)` after the role gate: decodes the request body
(`none` models a parse failure, 400), parses the `{id}` path variable
(`none` models a `strconv.ParseInt` failure, 400), fetches the job via
`FindById` — a lookup failure is rejected by this caller with the 422
"finding job failed" `handleError` before the stop handler ever runs —
and only then hands the (non-nil) job to `checkAndHandleStopJob`. -/
def stopJobById (decoded : Option StopJobApiRequest) (idParse : Option Int)
    (jobs : List Job) (fetchOk archOk : Bool) : StopEffects :=
  match decoded with
  | none =>
      ⟨handleError "parsing request body failed" 400, none, 0, false, []⟩
  | some req =>
      match idParse with
      | none =>
          ⟨handleError "integer expected in path for id" 400, none, 0, false, []⟩
      | some id =>
          match FindById id jobs with
          | none =>
              ⟨handleError "finding job failed: sql: no rows in result set" 422,
               none, 0, false, []⟩
          | some job => checkAndHandleStopJob (some job) req fetchOk archOk

/-! ## Helper lemmas -/

theorem int32ofInt_eq_twosComplement32 (n : Int) :
    int32ofInt n = twosComplement32 n := by
  unfold int32ofInt twosComplement32
  have h32 : (2 : Int) ^ 32 = 4294967296 := by norm_num
  have h31 : (2 : Int) ^ 31 = 2147483648 := by norm_num
  rw [h32, h31]
  split <;> omega

theorem int32ofInt_eq_of_lt (n : Int) (h1 : -(2 ^ 31) ≤ n) (h2 : n < 2 ^ 31) :
    int32ofInt n = n := by
  unfold int32ofInt
  have h32 : (2 : Int) ^ 32 = 4294967296 := by norm_num
  have h31 : (2 : Int) ^ 31 = 2147483648 := by norm_num
  rw [h32, h31]
  rw [h31] at h2
  rw [h31] at h1
  omega

theorem int32ofInt_lt (n : Int) : int32ofInt n < 2 ^ 31 := by
  unfold int32ofInt
  have h32 : (2 : Int) ^ 32 = 4294967296 := by norm_num
  have h31 : (2 : Int) ^ 31 = 2147483648 := by norm_num
  rw [h32, h31]
  omega

theorem length_filter_split (p : Job → Bool) (l : List Job) :
    l.length = (l.filter (fun j => !(p j))).length + (l.filter p).length := by
  induction l with
  | nil => simp
  | cons a l ih =>
      by_cases h : p a <;> simp [List.filter_cons, h, ih] <;> omega

/-! ## Claim theorems -/

/-- C2 counterexample: the claim says a stop request for a nonexistent
job fails with HTTP 400; in the program the caller rejects a failed
`FindById` lookup with the 422 "finding job failed" error before the
stop handler runs, so stopping job id 1 against an empty store answers
422, not 400. -/
theorem c2_counterexample :
    (stopJobById (some ⟨100, ""⟩) (some 1) [] true true).response =
      handleError "finding job failed: sql: no rows in result set" 422 ∧
    (stopJobById (some ⟨100, ""⟩) (some 1) [] true true).response.code ≠ 400 ∧
    (stopJobById (some ⟨100, ""⟩) (some 1) [] true true).stopCall = none :=
  ⟨rfl, by decide, rfl⟩

/-- C2 amended: for every stop-job request, a nonexistent job is
rejected by the caller with HTTP 422 ("finding job failed") before the
stop handler runs; a job whose start time is not before the requested
stopTime or whose state is not running is rejected by the stop handler
with the 400 `InvalidTransitionError`; in both cases the store's `Stop`
operation is never invoked and the job record is left unchanged. -/
theorem c2_amended_stop_preconditions (req : StopJobApiRequest) (id : Int)
    (jobs : List Job) (fetchOk archOk : Bool) :
    (FindById id jobs = none →
      (stopJobById (some req) (some id) jobs fetchOk archOk).response =
        handleError "finding job failed: sql: no rows in result set" 422 ∧
      (stopJobById (some req) (some id) jobs fetchOk archOk).stopCall = none) ∧
    (∀ j, FindById id jobs = some j →
      req.stopTime ≤ j.startTime ∨ j.state ≠ JobState.running →
      (stopJobById (some req) (some id) jobs fetchOk archOk).response =
        handleError
          "stopTime must be larger than startTime and only running jobs can be stopped"
          400 ∧
      (stopJobById (some req) (some id) jobs fetchOk archOk).stopCall = none) := by
  constructor
  · intro hnone
    simp [stopJobById, hnone]
  · intro j hj hcond
    have hc : j.startTime ≥ req.stopTime ∨ j.state ≠ JobState.running := by
      rcases hcond with h1 | h2
      · exact Or.inl h1
      · exact Or.inr h2
    simp only [stopJobById, hj, checkAndHandleStopJob, if_pos hc]
    simp

/-- C2 amended witness: stopping a job whose stopTime is not after its
start time is rejected with the 400 error and no `Stop` call. -/
theorem c2_amended_stop_preconditions_witness :
    (stopJobById (some ⟨100, ""⟩) (some 1)
        [⟨1, 123000, "fritz", 200, 0, "running",
          MonitoringStatus.runningOrArchiving⟩] true true).response =
      handleError
        "stopTime must be larger than startTime and only running jobs can be stopped"
        400 ∧
    (stopJobById (some ⟨100, ""⟩) (some 1)
        [⟨1, 123000, "fritz", 200, 0, "running",
          MonitoringStatus.runningOrArchiving⟩] true true).stopCall = none :=
  (c2_amended_stop_preconditions ⟨100, ""⟩ 1
      [⟨1, 123000, "fritz", 200, 0, "running",
        MonitoringStatus.runningOrArchiving⟩] true true).2
    _ rfl (Or.inl (by norm_num))

/-- C4: for every stop of a job whose monitoring status is disabled, no
archival unit of work is dispatched: the goroutine is not spawned, the
`OngoingArchivings` counter is not incremented, and no archiver
collaborator call happens. -/
theorem c4_disabled_no_archiving (j : Job) (req : StopJobApiRequest)
    (fetchOk archOk : Bool)
    (h : j.monitoringStatus = MonitoringStatus.disabled) :
    (checkAndHandleStopJob (some j) req fetchOk archOk).dispatched = false ∧
    (checkAndHandleStopJob (some j) req fetchOk archOk).archivingsAdded = 0 ∧
    (checkAndHandleStopJob (some j) req fetchOk archOk).archEvents = [] := by
  simp only [checkAndHandleStopJob]
  split
  · simp
  · split
    · simp
    · simp [h]

/-- C4 witness: a successful stop of a monitoring-disabled running job
dispatches nothing. -/
theorem c4_disabled_no_archiving_witness :
    (checkAndHandleStopJob
        (some ⟨1, 123000, "fritz", 10, 0, "running", MonitoringStatus.disabled⟩)
        ⟨100, ""⟩ true true).dispatched = false ∧
    (checkAndHandleStopJob
        (some ⟨1, 123000, "fritz", 10, 0, "running", MonitoringStatus.disabled⟩)
        ⟨100, ""⟩ true true).archivingsAdded = 0 ∧
    (checkAndHandleStopJob
        (some ⟨1, 123000, "fritz", 10, 0, "running", MonitoringStatus.disabled⟩)
        ⟨100, ""⟩ true true).archEvents = [] :=
  c4_disabled_no_archiving _ _ true true rfl

/-- C3 counterexample: the claim says a successful stop persists a
duration of exactly `stopTime - startTime`; for a running job started at
time 0 stopped at time `2^31` the persisted duration is the truncated
value `-2^31`, not `2^31`. -/
theorem c3_counterexample :
    (checkAndHandleStopJob
        (some ⟨1, 123000, "fritz", 0, 0, "running", MonitoringStatus.disabled⟩)
        ⟨2 ^ 31, ""⟩ true true).stopCall =
      some (-(2 ^ 31), "completed", MonitoringStatus.disabled) ∧
    (-(2 ^ 31) : Int) ≠ 2 ^ 31 - 0 := by
  constructor
  · rfl
  · decide

/-- C3 amended: for every stop-job request that succeeds (job running,
stopTime after startTime, requested state valid or absent), the
persisted and returned job carry duration equal to the 64→32-bit signed
truncation of `stopTime - startTime` — which equals exactly
`stopTime - startTime` whenever that difference is below `2^31` — and
the requested final state (completed when no state was supplied). -/
theorem c3_amended_stop_success (j : Job) (req : StopJobApiRequest)
    (fetchOk archOk : Bool)
    (hrun : j.state = JobState.running)
    (ht : j.startTime < req.stopTime)
    (hst : req.state = "" ∨ JobState.valid req.state = true) :
    (checkAndHandleStopJob (some j) req fetchOk archOk).stopCall =
      some (int32ofInt (req.stopTime - j.startTime),
        (if req.state = "" then JobState.completed else req.state),
        j.monitoringStatus) ∧
    (checkAndHandleStopJob (some j) req fetchOk archOk).response =
      ⟨200, Body.jobView
        { j with duration := int32ofInt (req.stopTime - j.startTime),
                 state := if req.state = "" then JobState.completed
                          else req.state }⟩ ∧
    (req.stopTime - j.startTime < 2 ^ 31 →
      int32ofInt (req.stopTime - j.startTime) = req.stopTime - j.startTime) := by
  have hc1 : ¬(j.startTime ≥ req.stopTime ∨ j.state ≠ JobState.running) := by
    push_neg
    exact ⟨ht, hrun⟩
  have hc2 : ¬(req.state ≠ "" ∧ JobState.valid req.state = false) := by
    rcases hst with h | h
    · exact fun hcon => hcon.1 h
    · intro hcon
      rw [h] at hcon
      exact absurd hcon.2 (by decide)
  refine ⟨?_, ?_, ?_⟩
  · simp only [checkAndHandleStopJob, if_neg hc1, if_neg hc2]
    split <;> rfl
  · simp only [checkAndHandleStopJob, if_neg hc1, if_neg hc2]
    split <;> rfl
  · intro hfit
    refine int32ofInt_eq_of_lt _ ?_ hfit
    have h31 : (0 : Int) < 2 ^ 31 := by norm_num
    omega

/-- C3 amended witness: stopping a running job started at 1649723812
with stopTime 3600 seconds later persists the truncated duration (here
exactly 3600, as the difference is below `2^31`) and state completed. -/
theorem c3_amended_stop_success_witness :
    (checkAndHandleStopJob
        (some ⟨1, 123000, "fritz", 1649723812, 0, "running",
          MonitoringStatus.runningOrArchiving⟩)
        ⟨1649723812 + 3600, ""⟩ true true).stopCall =
      some (int32ofInt ((1649723812 + 3600 : Int) - 1649723812),
        (if ("" : String) = "" then JobState.completed else ""),
        MonitoringStatus.runningOrArchiving) ∧
    (checkAndHandleStopJob
        (some ⟨1, 123000, "fritz", 1649723812, 0, "running",
          MonitoringStatus.runningOrArchiving⟩)
        ⟨1649723812 + 3600, ""⟩ true true).response =
      ⟨200, Body.jobView
        ⟨1, 123000, "fritz", 1649723812,
          int32ofInt ((1649723812 + 3600 : Int) - 1649723812),
          (if ("" : String) = "" then JobState.completed else ""),
          MonitoringStatus.runningOrArchiving⟩⟩ ∧
    ((1649723812 + 3600 : Int) - 1649723812 < 2 ^ 31 →
      int32ofInt ((1649723812 + 3600 : Int) - 1649723812) =
        (1649723812 + 3600 : Int) - 1649723812) :=
  c3_amended_stop_success _ _ true true rfl (by norm_num) (Or.inl rfl)

/-- C10: on a successful stop the persisted duration is the 64→32-bit
signed conversion of `stopTime - startTime`: it equals that difference
reduced modulo 2^32 and reinterpreted as a signed 32-bit value, and
whenever the difference exceeds `2^31 - 1` it differs from the exact
difference. -/
theorem c10_duration_int32 (j : Job) (req : StopJobApiRequest)
    (fetchOk archOk : Bool)
    (hrun : j.state = JobState.running)
    (ht : j.startTime < req.stopTime)
    (hst : req.state = "" ∨ JobState.valid req.state = true) :
    (checkAndHandleStopJob (some j) req fetchOk archOk).stopCall =
      some (int32ofInt (req.stopTime - j.startTime),
        (if req.state = "" then JobState.completed else req.state),
        j.monitoringStatus) ∧
    int32ofInt (req.stopTime - j.startTime) =
      twosComplement32 (req.stopTime - j.startTime) ∧
    (2 ^ 31 - 1 < req.stopTime - j.startTime →
      int32ofInt (req.stopTime - j.startTime) ≠ req.stopTime - j.startTime) := by
  refine ⟨?_, int32ofInt_eq_twosComplement32 _, ?_⟩
  · have hc1 : ¬(j.startTime ≥ req.stopTime ∨ j.state ≠ JobState.running) := by
      push_neg
      exact ⟨ht, hrun⟩
    have hc2 : ¬(req.state ≠ "" ∧ JobState.valid req.state = false) := by
      rcases hst with h | h
      · exact fun hcon => hcon.1 h
      · intro hcon
        rw [h] at hcon
        exact absurd hcon.2 (by decide)
    simp only [checkAndHandleStopJob, if_neg hc1, if_neg hc2]
    split <;> rfl
  · intro hbig
    have := int32ofInt_lt (req.stopTime - j.startTime)
    omega

/-- C10 witness: a stop whose difference is exactly `2^31` persists the
wrapped duration `-2^31`. -/
theorem c10_duration_int32_witness :
    (checkAndHandleStopJob
        (some ⟨1, 123000, "fritz", 0, 0, "running", MonitoringStatus.disabled⟩)
        ⟨2 ^ 31, ""⟩ true true).stopCall =
      some (int32ofInt ((2 ^ 31 : Int) - 0),
        (if ("" : String) = "" then JobState.completed else ""),
        MonitoringStatus.disabled) ∧
    int32ofInt ((2 ^ 31 : Int) - 0) = twosComplement32 ((2 ^ 31 : Int) - 0) ∧
    ((2 : Int) ^ 31 - 1 < (2 ^ 31 : Int) - 0 →
      int32ofInt ((2 ^ 31 : Int) - 0) ≠ (2 ^ 31 : Int) - 0) :=
  c10_duration_int32 _ _ true true rfl (by norm_num) (Or.inl rfl)

/-- C5: for every dispatched archival unit of work, a metadata-fetch
failure or a Metric-Archiver failure sets the monitoring status to
archiving-failed and aborts without the final statistics-persisting
`Archive` update (and a fetch failure aborts before the archiver is even
invoked); the `Archive` update, carrying status archiving-successful,
happens only when both steps succeed. -/
theorem c5_archival_failure (fetchOk archOk : Bool) :
    ((fetchOk = false ∨ archOk = false) →
      ArchEvent.updateMonitoringStatus MonitoringStatus.archivingFailed ∈
        archivingPipeline fetchOk archOk ∧
      (∀ s, ArchEvent.archive s ∉ archivingPipeline fetchOk archOk)) ∧
    (fetchOk = false →
      ArchEvent.invokeArchiver ∉ archivingPipeline fetchOk archOk) ∧
    (∀ s, ArchEvent.archive s ∈ archivingPipeline fetchOk archOk →
      fetchOk = true ∧ archOk = true ∧
        s = MonitoringStatus.archivingSuccessful) := by
  cases fetchOk <;> cases archOk <;> simp [archivingPipeline]

/-- C5 witness: when the Metric Archiver fails the pipeline records the
archiving-failed status and never issues the statistics-persisting
update. -/
theorem c5_archival_failure_witness :
    ArchEvent.updateMonitoringStatus MonitoringStatus.archivingFailed ∈
      archivingPipeline true false ∧
    (∀ s, ArchEvent.archive s ∉ archivingPipeline true false) :=
  (c5_archival_failure true false).1 (Or.inr rfl)

/-- C6: for every start-job request whose body fails to decode or whose
specification fails the sanity checks, `startJob` answers with a 400
JSON error before any storage operation: the store-call trace is empty
and the store is unchanged. -/
theorem c6_validation_before_store (decoded : Option JobMeta)
    (sanityOk : JobMeta → Bool) (store : Store)
    (h : ∀ m, decoded = some m → sanityOk (applyStateDefault m) = false) :
    (startJob decoded sanityOk store).ops = [] ∧
    (startJob decoded sanityOk store).store = store ∧
    (startJob decoded sanityOk store).response.code = 400 ∧
    (startJob decoded sanityOk store).response.body.isErrorJson = true := by
  cases decoded with
  | none => exact ⟨rfl, rfl, rfl, rfl⟩
  | some m =>
      have hm := h m rfl
      simp [startJob, hm, handleError, Body.isErrorJson]

/-- C6 witness: a request whose body fails to decode leaves the store
untouched and gets a 400 JSON error. -/
theorem c6_validation_before_store_witness :
    (startJob none (fun _ => true) ⟨[], 1⟩).ops = [] ∧
    (startJob none (fun _ => true) ⟨[], 1⟩).store = ⟨[], 1⟩ ∧
    (startJob none (fun _ => true) ⟨[], 1⟩).response.code = 400 ∧
    (startJob none (fun _ => true) ⟨[], 1⟩).response.body.isErrorJson = true :=
  c6_validation_before_store none (fun _ => true) ⟨[], 1⟩ (fun _ h => by cases h)

/-- C1 counterexample: the claim says both starts succeed whenever the
start times are ≥ 86400 s apart in either direction; here an existing
job started at 200000 and a new request for the same (jobId, cluster)
started at 0 are 200000 s apart, yet the request is rejected with the
422 duplicate error, because the source compares the signed difference
`req.StartTime - job.StartTimeUnix < 86400`. -/
theorem c1_counterexample :
    (startJob
        (some ⟨123000, "fritz", 0, "running", MonitoringStatus.runningOrArchiving, []⟩)
        (fun _ => true)
        ⟨[⟨1, 123000, "fritz", 200000, 0, "running",
          MonitoringStatus.runningOrArchiving⟩], 2⟩).response =
      handleError (duplicateMsg 1) 422 ∧
    86400 ≤ ((0 : Int) - 200000).natAbs := by
  exact ⟨rfl, by decide⟩

/-- C1 amended: a start-job request (decoded, sanity-checked) fails with
the 422 duplicate error carrying the first conflicting row's database id
exactly when some existing job with the same (external id, cluster) has
`newStartTime - existingStartTime < 86400` as a signed comparison — so
any new start earlier than, or less than 86400 s after, a match is
rejected; when the new start time is at least 86400 s after every match
the start succeeds and the row is inserted. -/
theorem c1_amended_duplicate_window (m : JobMeta) (sanityOk : JobMeta → Bool)
    (store : Store) (hsan : sanityOk (applyStateDefault m) = true) :
    ((startJob (some m) sanityOk store).response.code = 422 ↔
      ∃ j ∈ FindAll (applyStateDefault m).jobID (applyStateDefault m).cluster
          store.jobs,
        duplicateWindow (applyStateDefault m).startTime j = true) ∧
    (∀ j, (FindAll (applyStateDefault m).jobID (applyStateDefault m).cluster
        store.jobs).find?
          (duplicateWindow (applyStateDefault m).startTime) = some j →
      (startJob (some m) sanityOk store).response =
        handleError (duplicateMsg j.id) 422) ∧
    ((∀ j ∈ FindAll (applyStateDefault m).jobID (applyStateDefault m).cluster
        store.jobs,
        duplicateWindow (applyStateDefault m).startTime j = false) →
      (startJob (some m) sanityOk store).response =
        ⟨201, Body.startOk store.nextId⟩ ∧
      (startJob (some m) sanityOk store).store.jobs =
        store.jobs ++ [jobOfMeta store.nextId (applyStateDefault m)]) := by
  cases hfind : (FindAll (applyStateDefault m).jobID (applyStateDefault m).cluster
      store.jobs).find? (duplicateWindow (applyStateDefault m).startTime) with
  | some j =>
      have hmem := List.mem_of_find?_eq_some hfind
      have hprop := List.find?_some hfind
      refine ⟨⟨fun _ => ⟨j, hmem, hprop⟩, fun _ => ?_⟩, fun j' hj' => ?_, fun hall => ?_⟩
      · simp [startJob, hsan, hfind, handleError]
      · cases hj'
        simp [startJob, hsan, hfind]
      · exact absurd hprop (by simp [hall j hmem])
  | none =>
      have hnone := List.find?_eq_none.mp hfind
      refine ⟨⟨fun hcode => ?_, fun hex => ?_⟩, fun j' hj' => ?_, fun _ => ?_⟩
      · have : (startJob (some m) sanityOk store).response.code = 201 := by
          simp [startJob, hsan, hfind]
        omega
      · obtain ⟨j, hj, hw⟩ := hex
        exact absurd hw (by simp [hnone j hj])
      · cases hj'
      · constructor
        · simp [startJob, hsan, hfind]
        · simp [startJob, hsan, hfind]

/-- C1 amended witness: with one existing match started at 0, a new
start at 90000 (90000 s later, ≥ 86400) succeeds with a 201 response
and the row inserted. -/
theorem c1_amended_duplicate_window_witness :
    (startJob
        (some ⟨123000, "fritz", 90000, "running",
          MonitoringStatus.runningOrArchiving, []⟩)
        (fun _ => true)
        ⟨[⟨1, 123000, "fritz", 0, 0, "completed",
          MonitoringStatus.archivingSuccessful⟩], 2⟩).response =
      ⟨201, Body.startOk 2⟩ ∧
    (startJob
        (some ⟨123000, "fritz", 90000, "running",
          MonitoringStatus.runningOrArchiving, []⟩)
        (fun _ => true)
        ⟨[⟨1, 123000, "fritz", 0, 0, "completed",
          MonitoringStatus.archivingSuccessful⟩], 2⟩).store.jobs =
      [⟨1, 123000, "fritz", 0, 0, "completed",
        MonitoringStatus.archivingSuccessful⟩] ++
        [jobOfMeta 2 (applyStateDefault
          ⟨123000, "fritz", 90000, "running",
            MonitoringStatus.runningOrArchiving, []⟩)] :=
  (c1_amended_duplicate_window
    ⟨123000, "fritz", 90000, "running", MonitoringStatus.runningOrArchiving, []⟩
    (fun _ => true)
    ⟨[⟨1, 123000, "fritz", 0, 0, "completed",
      MonitoringStatus.archivingSuccessful⟩], 2⟩
    rfl).2.2 (by decide)

/-- C8 counterexample: the jobs-listing endpoint rejects an invalid
`state` query parameter through `http.Error`, a plain-text body rather
than the JSON `{status, error}` object. -/
theorem c8_counterexample :
    getJobsParams [("state", ["nonsense"])] =
      Except.error ⟨400, Body.plainText "invalid query parameter value: state"⟩ ∧
    (Body.plainText "invalid query parameter value: state").isErrorJson = false :=
  ⟨rfl, rfl⟩

/-- C8 amended: the error paths routed through the shared `handleError`
helper — all failure responses of `checkAndHandleStopJob` and of the
delete-before handler — do carry the JSON `{status, error}` body; but
endpoints using `http.Error`, such as the jobs-listing query-parameter
validation, return plain-text bodies instead. -/
theorem c8_amended_error_shapes :
    (∀ (job : Option Job) (req : StopJobApiRequest) (fetchOk archOk : Bool),
      (checkAndHandleStopJob job req fetchOk archOk).response.code ≠ 200 →
      (checkAndHandleStopJob job req fetchOk archOk).response.body.isErrorJson =
        true) ∧
    (∀ (tsParse : Option Int) (jobs : List Job),
      (deleteJobBefore tsParse jobs).1.code ≠ 200 →
      (deleteJobBefore tsParse jobs).1.body.isErrorJson = true) := by
  constructor
  · intro job req fetchOk archOk
    cases job with
    | none => intro _; rfl
    | some j =>
        simp only [checkAndHandleStopJob]
        split
        · intro _; rfl
        · split
          · intro _; rfl
          · split <;> (intro h; exact absurd rfl h)
  · intro tsParse jobs
    cases tsParse with
    | none => intro _; rfl
    | some ts => intro h; exact absurd rfl h

/-- C8 amended witness: the 400 rejection of a stop of a nonexistent job
carries the JSON error body. -/
theorem c8_amended_error_shapes_witness :
    (checkAndHandleStopJob none ⟨5, ""⟩ true true).response.body.isErrorJson =
      true :=
  c8_amended_error_shapes.1 none ⟨5, ""⟩ true true (by decide)

/-- C9: a successful `DELETE /jobs/delete_job_before/{ts}` removes from
the database exactly the jobs with start time before `ts` and answers
200 with `{msg: "Successfully deleted N jobs"}` where `N` is the exact
number of deleted rows. -/
theorem c9_delete_job_before (ts : Int) (jobs : List Job) :
    (deleteJobBefore (some ts) jobs).1 =
      ⟨200, Body.deleteMsg ("Successfully deleted " ++
        toString (jobs.filter (fun j => j.startTime < ts)).length ++ " jobs")⟩ ∧
    (deleteJobBefore (some ts) jobs).2 =
      jobs.filter (fun j => !(j.startTime < ts)) ∧
    (∀ j ∈ jobs, j.startTime < ts → j ∉ (deleteJobBefore (some ts) jobs).2) ∧
    (∀ j ∈ (deleteJobBefore (some ts) jobs).2, ¬(j.startTime < ts)) ∧
    jobs.length = (deleteJobBefore (some ts) jobs).2.length +
      (jobs.filter (fun j => j.startTime < ts)).length := by
  refine ⟨rfl, rfl, ?_, ?_, ?_⟩
  · intro j _ hlt hmem
    simp only [deleteJobBefore, DeleteJobsBefore, List.mem_filter] at hmem
    rw [Bool.not_eq_true'] at hmem
    exact absurd hlt (by simpa using hmem.2)
  · intro j hmem
    simp only [deleteJobBefore, DeleteJobsBefore, List.mem_filter] at hmem
    rw [Bool.not_eq_true'] at hmem
    simpa using hmem.2
  · simpa [deleteJobBefore, DeleteJobsBefore] using
      length_filter_split (fun j => decide (j.startTime < ts)) jobs

/-- C9 witness: with one job older and one newer than the threshold, the
handler reports one deletion and only the older job is removed. -/
theorem c9_delete_job_before_witness :
    (deleteJobBefore (some 100)
        [⟨1, 1, "a", 50, 0, "running", MonitoringStatus.disabled⟩,
         ⟨2, 2, "b", 150, 0, "running", MonitoringStatus.disabled⟩]).1 =
      ⟨200, Body.deleteMsg "Successfully deleted 1 jobs"⟩ ∧
    (⟨1, 1, "a", 50, 0, "running", MonitoringStatus.disabled⟩ : Job) ∉
      (deleteJobBefore (some 100)
        [⟨1, 1, "a", 50, 0, "running", MonitoringStatus.disabled⟩,
         ⟨2, 2, "b", 150, 0, "running", MonitoringStatus.disabled⟩]).2 :=
  ⟨(c9_delete_job_before 100
      [⟨1, 1, "a", 50, 0, "running", MonitoringStatus.disabled⟩,
       ⟨2, 2, "b", 150, 0, "running", MonitoringStatus.disabled⟩]).1,
   (c9_delete_job_before 100
      [⟨1, 1, "a", 50, 0, "running", MonitoringStatus.disabled⟩,
       ⟨2, 2, "b", 150, 0, "running", MonitoringStatus.disabled⟩]).2.2.1
     _ (by decide) (by decide)⟩

/-- The tag id `AddTagOrCreate` ends up associating with the job: the
existing tag's id when a tag with that (type, name) exists, otherwise
the id `CreateTag` assigns. -/
def newTagId (tagType tagName : String) (db : TagDB) : Int :=
  if (TagId tagType tagName db).2 then (TagId tagType tagName db).1
  else db.nextTagId

/-- C7: for every `AddTagOrCreate(jobId, type, name)` on an existing
job: the call returns a tag id under which a (type, name) tag row
exists, a `tag` row is created exactly when none existed, the tag is
associated with the job, and the job's full current tag set is handed to
`archive.UpdateTags`, i.e. propagated to the job's archive record. -/
theorem c7_addTagOrCreate (jobId : Int) (tagType tagName : String) (db : TagDB)
    (hjob : db.jobs.contains jobId = true) :
    (AddTagOrCreate jobId tagType tagName db).1 =
      some (newTagId tagType tagName db) ∧
    (⟨newTagId tagType tagName db, tagType, tagName⟩ : Tag) ∈
      (AddTagOrCreate jobId tagType tagName db).2.tags ∧
    (jobId, newTagId tagType tagName db) ∈
      (AddTagOrCreate jobId tagType tagName db).2.jobtag ∧
    ((TagId tagType tagName db).2 = true →
      (AddTagOrCreate jobId tagType tagName db).2.tags = db.tags) ∧
    ((TagId tagType tagName db).2 = false →
      (AddTagOrCreate jobId tagType tagName db).2.tags =
        db.tags ++ [⟨db.nextTagId, tagType, tagName⟩]) ∧
    (AddTagOrCreate jobId tagType tagName db).2.archiveUpdates =
      db.archiveUpdates ++
        [(jobId, GetTags jobId (AddTagOrCreate jobId tagType tagName db).2)] := by
  have hjob' : jobId ∈ db.jobs := by simpa using hjob
  cases hfind : db.tags.find? (fun t => t.type == tagType && t.name == tagName) with
  | some t =>
      have hprop := List.find?_some hfind
      simp only [Bool.and_eq_true, beq_iff_eq] at hprop
      have hteq : t = ⟨t.id, tagType, tagName⟩ := by
        obtain ⟨tid, tty, tnm⟩ := t
        simp_all
      have hmem : (⟨t.id, tagType, tagName⟩ : Tag) ∈ db.tags :=
        hteq ▸ List.mem_of_find?_eq_some hfind
      have hTagId : TagId tagType tagName db = (t.id, true) := by
        simp [TagId, hfind]
      have hnew : newTagId tagType tagName db = t.id := by
        simp [newTagId, hTagId]
      have key : AddTagOrCreate jobId tagType tagName db =
          (some t.id,
           { tags := db.tags,
             jobtag := db.jobtag ++ [(jobId, t.id)],
             jobs := db.jobs,
             nextTagId := db.nextTagId,
             archiveUpdates := db.archiveUpdates ++
               [(jobId, GetTags jobId
                 { tags := db.tags,
                   jobtag := db.jobtag ++ [(jobId, t.id)],
                   jobs := db.jobs,
                   nextTagId := db.nextTagId,
                   archiveUpdates := db.archiveUpdates })] }) := by
        simp [AddTagOrCreate, AddTag, hTagId, hjob']
      refine ⟨?_, ?_, ?_, ?_, ?_, ?_⟩
      · rw [key, hnew]
      · rw [key, hnew]
        exact hmem
      · rw [key, hnew]
        simp
      · intro _
        rw [key]
      · intro hcon
        rw [hTagId] at hcon
        simp at hcon
      · rw [key]
        rfl
  | none =>
      have hTagId : TagId tagType tagName db = (0, false) := by
        simp [TagId, hfind]
      have hnew : newTagId tagType tagName db = db.nextTagId := by
        simp [newTagId, hTagId]
      have key : AddTagOrCreate jobId tagType tagName db =
          (some db.nextTagId,
           { tags := db.tags ++ [⟨db.nextTagId, tagType, tagName⟩],
             jobtag := db.jobtag ++ [(jobId, db.nextTagId)],
             jobs := db.jobs,
             nextTagId := db.nextTagId + 1,
             archiveUpdates := db.archiveUpdates ++
               [(jobId, GetTags jobId
                 { tags := db.tags ++ [⟨db.nextTagId, tagType, tagName⟩],
                   jobtag := db.jobtag ++ [(jobId, db.nextTagId)],
                   jobs := db.jobs,
                   nextTagId := db.nextTagId + 1,
                   archiveUpdates := db.archiveUpdates })] }) := by
        simp [AddTagOrCreate, AddTag, CreateTag, hTagId, hjob']
      refine ⟨?_, ?_, ?_, ?_, ?_, ?_⟩
      · rw [key, hnew]
      · rw [key, hnew]
        simp
      · rw [key, hnew]
        simp
      · intro hcon
        rw [hTagId] at hcon
        exact absurd hcon (by decide)
      · intro _
        rw [key]
      · rw [key]
        rfl

/-- C7 witness: adding the tag (Debug, Testjob) to job 7 of a store that
has no tags yet creates tag 10, associates it, and records the archive
propagation of the job's full tag set. -/
theorem c7_addTagOrCreate_witness :
    (AddTagOrCreate 7 "Debug" "Testjob" ⟨[], [], [7], 10, []⟩).1 =
      some (newTagId "Debug" "Testjob" ⟨[], [], [7], 10, []⟩) ∧
    (⟨newTagId "Debug" "Testjob" ⟨[], [], [7], 10, []⟩, "Debug", "Testjob"⟩ : Tag) ∈
      (AddTagOrCreate 7 "Debug" "Testjob" ⟨[], [], [7], 10, []⟩).2.tags ∧
    (7, newTagId "Debug" "Testjob" ⟨[], [], [7], 10, []⟩) ∈
      (AddTagOrCreate 7 "Debug" "Testjob" ⟨[], [], [7], 10, []⟩).2.jobtag ∧
    ((TagId "Debug" "Testjob" ⟨[], [], [7], 10, []⟩).2 = true →
      (AddTagOrCreate 7 "Debug" "Testjob" ⟨[], [], [7], 10, []⟩).2.tags = []) ∧
    ((TagId "Debug" "Testjob" ⟨[], [], [7], 10, []⟩).2 = false →
      (AddTagOrCreate 7 "Debug" "Testjob" ⟨[], [], [7], 10, []⟩).2.tags =
        [] ++ [⟨10, "Debug", "Testjob"⟩]) ∧
    (AddTagOrCreate 7 "Debug" "Testjob" ⟨[], [], [7], 10, []⟩).2.archiveUpdates =
      [] ++ [(7, GetTags 7 (AddTagOrCreate 7 "Debug" "Testjob"
        ⟨[], [], [7], 10, []⟩).2)] :=
  c7_addTagOrCreate 7 "Debug" "Testjob" ⟨[], [], [7], 10, []⟩ rfl

end CC
